import Mathlib

/-!
# Verification of the MCP Monitor core

A shallow embedding of the telemetry engine (`TelemetryCollector` in
`collector.ts`) and the instrumentation wrapper (`MCPInterceptor` in
`interceptor.ts`), together with theorems settling the spec's claims.

Modelling conventions:
* JavaScript numbers are embedded as `ℚ` (exact arithmetic); timestamps
  (millisecond instants from `Date.now()`) as `Int`.
* `nanoid()` identifiers and `Date.now()` readings are inputs of each
  operation (an `IngestEnv`), since they come from the environment.
* JS arrays become `List`s; `push` appends at the end.
* The `EventEmitter` fan-out (`this.emit(...)`) has no effect on the
  collector's stored state and is not part of any claim's footprint, so it
  is not modelled.
-/

namespace MCPMonitor

/-- A JavaScript runtime value, as far as the monitor inspects one:
the wrapper only ever asks `typeof result === 'string'`, reads `.length`
of a string, splits a string on whitespace, and tests truthiness of the
first argument.  Non-primitive values are kept abstract behind a tag. -/
inductive JSValue where
  | str (s : String)
  | num (q : ℚ)
  | bool (b : Bool)
  | nullv
  | undef
  | obj (tag : Nat)
deriving DecidableEq, Repr

/-- JS truthiness of a `JSValue` (`""`, `0`, `false`, `null`, `undefined`
are falsy; objects are always truthy). -/
def jsTruthy : JSValue → Bool
  | .str s => decide (s ≠ "")
  | .num q => decide (q ≠ 0)
  | .bool b => b
  | .nullv => false
  | .undef => false
  | .obj _ => true

/-- A thrown/rejected JS failure: either an `Error` instance carrying its
`.message`, or any other thrown value carrying its `String(...)` rendering.
Mirrors `error instanceof Error ? error.message : String(error)`. -/
inductive JSThrown where
  | errObj (message : String)
  | nonError (display : String)
deriving DecidableEq, Repr

/-- The message string the wrapper reports for a failure
(`error instanceof Error ? error.message : String(error)`). -/
def JSThrown.messageOf : JSThrown → String
  | .errObj m => m
  | .nonError s => s

/-- `status` field of a recorded event (`'pending' | 'success' | 'error'`). -/
inductive Status where
  | pending
  | success
  | error
deriving DecidableEq, Repr

/-- `operation` field of a resource access (`'read' | 'write' | 'list'`). -/
inductive ResourceOp where
  | read
  | write
  | list
deriving DecidableEq, Repr

/-- `type` field of an `ErrorLog` record
(`'tool' | 'resource' | 'prompt' | 'server'`). -/
inductive ErrType where
  | tool
  | resource
  | prompt
  | server
deriving DecidableEq, Repr

/-- `MCPToolCall` from `types.ts` (the unused optional `metadata` block is
omitted; the engine never reads it). -/
structure MCPToolCall where
  id : String
  timestamp : Int
  toolName : String
  params : JSValue
  duration : Option ℚ
  status : Status
  error : Option String
  result : Option JSValue
deriving DecidableEq, Repr

/-- `MCPResourceAccess` from `types.ts`. -/
structure MCPResourceAccess where
  id : String
  timestamp : Int
  resourceUri : String
  operation : ResourceOp
  duration : Option ℚ
  status : Status
  error : Option String
  bytesTransferred : Option ℚ
deriving DecidableEq, Repr

/-- `MCPPromptCall` from `types.ts`. -/
structure MCPPromptCall where
  id : String
  timestamp : Int
  promptName : String
  args : JSValue
  duration : Option ℚ
  status : Status
  error : Option String
  tokensGenerated : Option ℚ
deriving DecidableEq, Repr

/-- `ErrorLog` from `types.ts`. -/
structure ErrorLog where
  id : String
  timestamp : Int
  type : ErrType
  name : String
  error : String
  stackTrace : Option String
deriving DecidableEq, Repr

/-- The fields of `MonitorConfig` the engine reads. -/
structure MonitorConfig where
  serverName : String
  port : Int
  retentionDays : Int
  enableWebUI : Bool
  enableMetricsExport : Bool
deriving DecidableEq, Repr

/-- The private state of a `TelemetryCollector` instance. -/
structure CollectorState where
  toolCalls : List MCPToolCall
  resourceAccesses : List MCPResourceAccess
  promptCalls : List MCPPromptCall
  errors : List ErrorLog
  startTime : Int
  config : MonitorConfig
  latencies : List ℚ
  requestTimestamps : List Int
deriving DecidableEq, Repr

/-- `new TelemetryCollector(config)` at instant `now`: empty logs,
`startTime = Date.now()`. -/
def mkCollector (config : MonitorConfig) (now : Int) : CollectorState :=
  { toolCalls := []
    resourceAccesses := []
    promptCalls := []
    errors := []
    startTime := now
    config := config
    latencies := []
    requestTimestamps := [] }

/-- Environment values consumed by one ingestion: the `nanoid()` for the
event record, the `nanoid()` for a derived error record (if one is
created), and the `Date.now()` reading. -/
structure IngestEnv where
  id : String
  errId : String
  now : Int
deriving DecidableEq, Repr

/-- `Omit<MCPToolCall, 'id' | 'timestamp'>`: caller-supplied fields of a
tool-call ingestion. -/
structure ToolCallInput where
  toolName : String
  params : JSValue
  duration : Option ℚ
  status : Status
  error : Option String
  result : Option JSValue
deriving DecidableEq, Repr

/-- `Omit<MCPResourceAccess, 'id' | 'timestamp'>`. -/
structure ResourceAccessInput where
  resourceUri : String
  operation : ResourceOp
  duration : Option ℚ
  status : Status
  error : Option String
  bytesTransferred : Option ℚ
deriving DecidableEq, Repr

/-- `Omit<MCPPromptCall, 'id' | 'timestamp'>`. -/
structure PromptCallInput where
  promptName : String
  args : JSValue
  duration : Option ℚ
  status : Status
  error : Option String
  tokensGenerated : Option ℚ
deriving DecidableEq, Repr

/-- `Omit<ErrorLog, 'id' | 'timestamp'>` as built at the three call sites
of `recordError` (none of them supplies a `stackTrace`). -/
structure ErrorInput where
  type : ErrType
  name : String
  error : String
deriving DecidableEq, Repr

/-- `x || 'Unknown error'`: JS `||` falls through on `undefined` and on
the empty string (both falsy). -/
def jsOrUnknown : Option String → String
  | some m => if m = "" then "Unknown error" else m
  | none => "Unknown error"

/-- `recordRequest(duration?)`: push `Date.now()` onto
`requestTimestamps`; push `duration` onto `latencies` when supplied. -/
def recordRequest (s : CollectorState) (now : Int) (duration : Option ℚ) :
    CollectorState :=
  let s := { s with requestTimestamps := s.requestTimestamps ++ [now] }
  match duration with
  | some d => { s with latencies := s.latencies ++ [d] }
  | none => s

/-- `recordError(error)`: assign id/timestamp and push onto `errors`.
(The `emit('mcp_error', ...)` fan-out carries no state.) -/
def recordError (s : CollectorState) (e : ErrorInput) (errId : String)
    (now : Int) : CollectorState :=
  { s with errors := s.errors ++
      [{ id := errId, timestamp := now, type := e.type, name := e.name,
         error := e.error, stackTrace := none }] }

/-- `recordToolCall(call)`: assign id/timestamp, push the record, record
the request, and derive an error record when `status === 'error'`. -/
def recordToolCall (s : CollectorState) (call : ToolCallInput)
    (env : IngestEnv) : CollectorState :=
  let toolCall : MCPToolCall :=
    { id := env.id, timestamp := env.now, toolName := call.toolName,
      params := call.params, duration := call.duration,
      status := call.status, error := call.error, result := call.result }
  let s := { s with toolCalls := s.toolCalls ++ [toolCall] }
  let s := recordRequest s env.now toolCall.duration
  if toolCall.status = .error then
    recordError s
      { type := .tool, name := toolCall.toolName,
        error := jsOrUnknown toolCall.error } env.errId env.now
  else s

/-- `recordResourceAccess(access)`. -/
def recordResourceAccess (s : CollectorState) (access : ResourceAccessInput)
    (env : IngestEnv) : CollectorState :=
  let ra : MCPResourceAccess :=
    { id := env.id, timestamp := env.now, resourceUri := access.resourceUri,
      operation := access.operation, duration := access.duration,
      status := access.status, error := access.error,
      bytesTransferred := access.bytesTransferred }
  let s := { s with resourceAccesses := s.resourceAccesses ++ [ra] }
  let s := recordRequest s env.now ra.duration
  if ra.status = .error then
    recordError s
      { type := .resource, name := ra.resourceUri,
        error := jsOrUnknown ra.error } env.errId env.now
  else s

/-- `recordPromptCall(call)`. -/
def recordPromptCall (s : CollectorState) (call : PromptCallInput)
    (env : IngestEnv) : CollectorState :=
  let pc : MCPPromptCall :=
    { id := env.id, timestamp := env.now, promptName := call.promptName,
      args := call.args, duration := call.duration, status := call.status,
      error := call.error, tokensGenerated := call.tokensGenerated }
  let s := { s with promptCalls := s.promptCalls ++ [pc] }
  let s := recordRequest s env.now pc.duration
  if pc.status = .error then
    recordError s
      { type := .prompt, name := pc.promptName,
        error := jsOrUnknown pc.error } env.errId env.now
  else s

/-- `ToolMetrics` from `types.ts` (one per-name aggregate). -/
structure ToolMetrics where
  name : String
  callCount : Nat
  successCount : Nat
  errorCount : Nat
  avgDuration : ℚ
  lastCalled : Int
  errors : List String
deriving DecidableEq, Repr

/-- `ResourceMetrics` from `types.ts`. -/
structure ResourceMetrics where
  uri : String
  accessCount : Nat
  successCount : Nat
  errorCount : Nat
  totalBytesTransferred : ℚ
  avgDuration : ℚ
deriving DecidableEq, Repr

/-- `PromptMetrics` from `types.ts`. -/
structure PromptMetrics where
  name : String
  callCount : Nat
  successCount : Nat
  errorCount : Nat
  avgDuration : ℚ
  totalTokens : ℚ
deriving DecidableEq, Repr

/-- `PerformanceMetrics` from `types.ts`. -/
structure PerformanceMetrics where
  avgLatency : ℚ
  p50Latency : ℚ
  p95Latency : ℚ
  p99Latency : ℚ
  requestsPerSecond : ℚ
  errorRate : ℚ
  successRate : ℚ
deriving DecidableEq, Repr

/-- `ServerMetrics` from `types.ts` (the snapshot). -/
structure ServerMetrics where
  serverName : String
  uptime : Int
  totalRequests : Nat
  successfulRequests : Nat
  failedRequests : Int
  avgResponseTime : ℚ
  requestsPerMinute : Nat
  tools : List ToolMetrics
  resources : List ResourceMetrics
  prompts : List PromptMetrics
  errors : List ErrorLog
  performance : PerformanceMetrics
deriving DecidableEq, Repr

/-- The distinct keys of a JS `Map` built by repeated
`map.set(key, ...)` over a list, in iteration order (first occurrence). -/
def keysInOrder (names : List String) : List String :=
  names.foldl (fun acc n => if n ∈ acc then acc else acc ++ [n]) []

/-- The fresh per-name entry `calculateToolMetrics` starts from. -/
def initToolEntry (name : String) : ToolMetrics :=
  { name := name, callCount := 0, successCount := 0, errorCount := 0,
    avgDuration := 0, lastCalled := 0, errors := [] }

/-- One step of the `forEach` accumulation in `calculateToolMetrics`
(note the JS truthiness test `if (call.error)` skips empty strings). -/
def toolEntryStep (m : ToolMetrics) (call : MCPToolCall) : ToolMetrics :=
  { m with
    callCount := m.callCount + 1
    successCount :=
      if call.status = .success then m.successCount + 1 else m.successCount
    errorCount :=
      if call.status = .error then m.errorCount + 1 else m.errorCount
    errors :=
      if call.status = .error then
        match call.error with
        | some e => if e = "" then m.errors else m.errors ++ [e]
        | none => m.errors
      else m.errors
    lastCalled := max m.lastCalled call.timestamp }

/-- The durations of the calls on `name` that supplied one
(`filter(c => c.toolName === toolName && c.duration !== undefined)`). -/
def toolDurations (calls : List MCPToolCall) (name : String) : List ℚ :=
  (calls.filter (fun c => c.toolName = name)).filterMap (fun c => c.duration)

/-- `calculateToolMetrics()`: fold every call into its per-name entry
(JS `Map` iteration order = first-occurrence order of names), then fill
in `avgDuration` from the supplied durations. -/
def calculateToolMetrics (calls : List MCPToolCall) : List ToolMetrics :=
  (keysInOrder (calls.map (fun c => c.toolName))).map (fun n =>
    let entry := (calls.filter (fun c => c.toolName = n)).foldl
      toolEntryStep (initToolEntry n)
    let durations := toolDurations calls n
    { entry with
      avgDuration :=
        if durations.length > 0 then durations.sum / durations.length
        else 0 })

/-- The fresh per-name entry `calculateResourceMetrics` starts from. -/
def initResourceEntry (uri : String) : ResourceMetrics :=
  { uri := uri, accessCount := 0, successCount := 0, errorCount := 0,
    totalBytesTransferred := 0, avgDuration := 0 }

/-- One step of the `forEach` accumulation in `calculateResourceMetrics`
(`if (access.bytesTransferred)` is again a JS truthiness test). -/
def resourceEntryStep (m : ResourceMetrics) (access : MCPResourceAccess) :
    ResourceMetrics :=
  { m with
    accessCount := m.accessCount + 1
    successCount :=
      if access.status = .success then m.successCount + 1 else m.successCount
    errorCount :=
      if access.status = .error then m.errorCount + 1 else m.errorCount
    totalBytesTransferred :=
      match access.bytesTransferred with
      | some b =>
          if b = 0 then m.totalBytesTransferred
          else m.totalBytesTransferred + b
      | none => m.totalBytesTransferred }

/-- Durations supplied for accesses on `uri`. -/
def resourceDurations (accesses : List MCPResourceAccess) (uri : String) :
    List ℚ :=
  (accesses.filter (fun r => r.resourceUri = uri)).filterMap
    (fun r => r.duration)

/-- `calculateResourceMetrics()`. -/
def calculateResourceMetrics (accesses : List MCPResourceAccess) :
    List ResourceMetrics :=
  (keysInOrder (accesses.map (fun r => r.resourceUri))).map (fun u =>
    let entry := (accesses.filter (fun r => r.resourceUri = u)).foldl
      resourceEntryStep (initResourceEntry u)
    let durations := resourceDurations accesses u
    { entry with
      avgDuration :=
        if durations.length > 0 then durations.sum / durations.length
        else 0 })

/-- The fresh per-name entry `calculatePromptMetrics` starts from. -/
def initPromptEntry (name : String) : PromptMetrics :=
  { name := name, callCount := 0, successCount := 0, errorCount := 0,
    avgDuration := 0, totalTokens := 0 }

/-- One step of the `forEach` accumulation in `calculatePromptMetrics`. -/
def promptEntryStep (m : PromptMetrics) (call : MCPPromptCall) :
    PromptMetrics :=
  { m with
    callCount := m.callCount + 1
    successCount :=
      if call.status = .success then m.successCount + 1 else m.successCount
    errorCount :=
      if call.status = .error then m.errorCount + 1 else m.errorCount
    totalTokens :=
      match call.tokensGenerated with
      | some t => if t = 0 then m.totalTokens else m.totalTokens + t
      | none => m.totalTokens }

/-- Durations supplied for prompt calls on `name`. -/
def promptDurations (calls : List MCPPromptCall) (name : String) : List ℚ :=
  (calls.filter (fun p => p.promptName = name)).filterMap
    (fun p => p.duration)

/-- `calculatePromptMetrics()`. -/
def calculatePromptMetrics (calls : List MCPPromptCall) :
    List PromptMetrics :=
  (keysInOrder (calls.map (fun p => p.promptName))).map (fun n =>
    let entry := (calls.filter (fun p => p.promptName = n)).foldl
      promptEntryStep (initPromptEntry n)
    let durations := promptDurations calls n
    { entry with
      avgDuration :=
        if durations.length > 0 then durations.sum / durations.length
        else 0 })

/-- `percentile(sorted, p)`: `0` on the empty list, otherwise the element
at `Math.max(0, Math.ceil(sorted.length * p) - 1)`. -/
def percentile (sorted : List ℚ) (p : ℚ) : ℚ :=
  if sorted.length = 0 then 0
  else sorted.getD (max 0 (⌈(sorted.length : ℚ) * p⌉ - 1)).toNat 0

/-- `calculateRequestsPerSecond()`: timestamps within the trailing
1-second window (`t >= now - 1000`). -/
def calculateRequestsPerSecond (s : CollectorState) (now : Int) : Nat :=
  (s.requestTimestamps.filter (fun t => now - 1000 ≤ t)).length

/-- `calculateRequestsPerMinute()`: timestamps within the trailing
60-second window (`t >= now - 60000`). -/
def calculateRequestsPerMinute (s : CollectorState) (now : Int) : Nat :=
  (s.requestTimestamps.filter (fun t => now - 60000 ≤ t)).length

/-- `calculateAvgDuration()`: mean of the (unsorted) latency log. -/
def calculateAvgDuration (s : CollectorState) : ℚ :=
  if s.latencies.length = 0 then 0
  else s.latencies.sum / s.latencies.length

/-- Total requests across the three event logs
(`toolCalls.length + resourceAccesses.length + promptCalls.length`). -/
def totalRequestsOf (s : CollectorState) : Nat :=
  s.toolCalls.length + s.resourceAccesses.length + s.promptCalls.length

/-- `calculatePerformance()`: sorts a copy of the latency log and derives
the global performance snapshot. -/
def calculatePerformance (s : CollectorState) (now : Int) :
    PerformanceMetrics :=
  let sortedLatencies := s.latencies.mergeSort
  let total := totalRequestsOf s
  let errors := s.errors.length
  { avgLatency :=
      if sortedLatencies.length > 0 then
        sortedLatencies.sum / sortedLatencies.length
      else 0
    p50Latency := percentile sortedLatencies (50 / 100)
    p95Latency := percentile sortedLatencies (95 / 100)
    p99Latency := percentile sortedLatencies (99 / 100)
    requestsPerSecond := (calculateRequestsPerSecond s now : ℚ)
    errorRate := if total > 0 then ((errors : ℚ) / total) * 100 else 0
    successRate :=
      if total > 0 then (((total : ℚ) - errors) / total) * 100 else 100 }

/-- Successful requests across the three logs
(the three `filter(status === 'success')` arrays concatenated). -/
def successfulRequestsOf (s : CollectorState) : Nat :=
  (s.toolCalls.filter (fun c => c.status = .success)).length +
    (s.resourceAccesses.filter (fun r => r.status = .success)).length +
    (s.promptCalls.filter (fun p => p.status = .success)).length

/-- `getMetrics()`: the snapshot, computed from the state at instant
`now` (`errors.slice(-100)` surfaces only the last 100 error records). -/
def getMetrics (s : CollectorState) (now : Int) : ServerMetrics :=
  let totalRequests := totalRequestsOf s
  let successfulRequests := successfulRequestsOf s
  { serverName := s.config.serverName
    uptime := now - s.startTime
    totalRequests := totalRequests
    successfulRequests := successfulRequests
    failedRequests := (totalRequests : Int) - successfulRequests
    avgResponseTime := calculateAvgDuration s
    requestsPerMinute := calculateRequestsPerMinute s now
    tools := calculateToolMetrics s.toolCalls
    resources := calculateResourceMetrics s.resourceAccesses
    prompts := calculatePromptMetrics s.promptCalls
    errors := s.errors.drop (s.errors.length - 100)
    performance := calculatePerformance s now }

/-- `getMetrics()` in state-passing form: the method reads the logs but
reassigns none of the instance fields, so the state it leaves behind is
rebuilt field-by-field from the untouched fields. -/
def getMetricsS (s : CollectorState) (now : Int) :
    CollectorState × ServerMetrics :=
  ({ toolCalls := s.toolCalls
     resourceAccesses := s.resourceAccesses
     promptCalls := s.promptCalls
     errors := s.errors
     startTime := s.startTime
     config := s.config
     latencies := s.latencies
     requestTimestamps := s.requestTimestamps },
   getMetrics s now)

/-- `cleanup()`: drop records older than the retention cutoff and cap the
latency log at its most recent 10000 entries (`slice(-10000)`). -/
def cleanup (s : CollectorState) (now : Int) : CollectorState :=
  let retentionMs := s.config.retentionDays * 24 * 60 * 60 * 1000
  let cutoff := now - retentionMs
  { s with
    toolCalls := s.toolCalls.filter (fun c => cutoff ≤ c.timestamp)
    resourceAccesses :=
      s.resourceAccesses.filter (fun r => cutoff ≤ r.timestamp)
    promptCalls := s.promptCalls.filter (fun p => cutoff ≤ p.timestamp)
    errors := s.errors.filter (fun e => cutoff ≤ e.timestamp)
    latencies := s.latencies.drop (s.latencies.length - 10000)
    requestTimestamps :=
      s.requestTimestamps.filter (fun t => cutoff ≤ t) }

/-! ## The instrumentation wrapper (`MCPInterceptor`, `interceptor.ts`)

A capability is modelled as a function from its argument list to either a
result value or a thrown failure.  `Date.now()` is read twice per wrapped
call: `t0` at entry and `env.now` at settlement, so the reported duration
is `env.now - t0`.  The wrapped call returns the collector state after
its single ingestion together with the caller-visible outcome. -/

/-- `args[0] || {}`: the first positional argument when truthy, otherwise
a fresh empty object (a missing first argument is `undefined`, falsy). -/
def firstArgOrEmpty (args : List JSValue) : JSValue :=
  let a := args.headD JSValue.undef
  if jsTruthy a then a else JSValue.obj 0

/-- The body of the closure returned by `wrapTool(toolName, tool)`. -/
def wrapToolRun (s : CollectorState) (toolName : String)
    (tool : List JSValue → Except JSThrown JSValue) (args : List JSValue)
    (t0 : Int) (env : IngestEnv) :
    CollectorState × Except JSThrown JSValue :=
  let params := firstArgOrEmpty args
  match tool args with
  | .ok result =>
      (recordToolCall s
        { toolName := toolName, params := params,
          duration := some ((env.now - t0 : Int) : ℚ), status := .success,
          error := none, result := some result } env,
       .ok result)
  | .error e =>
      (recordToolCall s
        { toolName := toolName, params := params,
          duration := some ((env.now - t0 : Int) : ℚ), status := .error,
          error := some e.messageOf, result := none } env,
       .error e)

/-- `result.split(/\s+/)` on the underlying character list: fields are
separated by maximal whitespace runs; a leading run contributes a leading
empty field, a trailing run a trailing empty field, and the empty string
yields one empty field.  (`Char.isWhitespace` stands in for the `\s`
character class.) -/
def jsSplitWsGo : List Char → List Char → Bool → List String
  | [], acc, _ => [String.mk acc.reverse]
  | c :: rest, acc, inSep =>
      if c.isWhitespace then
        if inSep then jsSplitWsGo rest acc true
        else String.mk acc.reverse :: jsSplitWsGo rest [] true
      else jsSplitWsGo rest (c :: acc) false

/-- The field list of `s.split(/\s+/)`. -/
def jsSplitWs (s : String) : List String :=
  jsSplitWsGo s.data [] false

/-- `typeof result === 'string' ? result.length : 0` (JS string `.length`
modelled as the character count). -/
def jsStrLength : JSValue → ℚ
  | .str s => (s.length : ℚ)
  | _ => 0

/-- `typeof result === 'string' ? result.split(/\s+/).length : 0`. -/
def jsSplitCount : JSValue → ℚ
  | .str s => ((jsSplitWs s).length : ℚ)
  | _ => 0

/-- The body of the closure returned by
`wrapResource(resourceName, resource)`. -/
def wrapResourceRun (s : CollectorState) (resourceName : String)
    (resource : List JSValue → Except JSThrown JSValue)
    (args : List JSValue) (t0 : Int) (env : IngestEnv) :
    CollectorState × Except JSThrown JSValue :=
  match resource args with
  | .ok result =>
      (recordResourceAccess s
        { resourceUri := resourceName, operation := .read,
          duration := some ((env.now - t0 : Int) : ℚ), status := .success,
          error := none, bytesTransferred := some (jsStrLength result) }
        env,
       .ok result)
  | .error e =>
      (recordResourceAccess s
        { resourceUri := resourceName, operation := .read,
          duration := some ((env.now - t0 : Int) : ℚ), status := .error,
          error := some e.messageOf, bytesTransferred := none } env,
       .error e)

/-- The body of the closure returned by `wrapPrompt(promptName, prompt)`. -/
def wrapPromptRun (s : CollectorState) (promptName : String)
    (prompt : List JSValue → Except JSThrown JSValue)
    (args : List JSValue) (t0 : Int) (env : IngestEnv) :
    CollectorState × Except JSThrown JSValue :=
  let promptArgs := firstArgOrEmpty args
  match prompt args with
  | .ok result =>
      (recordPromptCall s
        { promptName := promptName, args := promptArgs,
          duration := some ((env.now - t0 : Int) : ℚ), status := .success,
          error := none, tokensGenerated := some (jsSplitCount result) }
        env,
       .ok result)
  | .error e =>
      (recordPromptCall s
        { promptName := promptName, args := promptArgs,
          duration := some ((env.now - t0 : Int) : ℚ), status := .error,
          error := some e.messageOf, tokensGenerated := none } env,
       .error e)

/-- Modelled from the spec: the "whitespace-delimited word count" of a
string, i.e. the number of maximal non-whitespace runs.  This is the
spec-side definition claim C5 compares the code against; it is not drawn
from the source. -/
def wordCountGo : List Char → Bool → Nat
  | [], _ => 0
  | c :: rest, inWord =>
      if c.isWhitespace then wordCountGo rest false
      else (if inWord then 0 else 1) + wordCountGo rest true

/-- Modelled from the spec: whitespace-delimited word count of a string. -/
def specWordCount (s : String) : Nat :=
  wordCountGo s.data false

/-- A sequence of tool-call ingestions, oldest first. -/
def ingestToolCalls (l : List (ToolCallInput × IngestEnv))
    (s : CollectorState) : CollectorState :=
  l.foldl (fun s ce => recordToolCall s ce.1 ce.2) s

/-- The record a tool-call ingestion appends. -/
def mkToolRecord (call : ToolCallInput) (env : IngestEnv) : MCPToolCall :=
  { id := env.id, timestamp := env.now, toolName := call.toolName,
    params := call.params, duration := call.duration,
    status := call.status, error := call.error, result := call.result }

/-! ### Concrete fixtures used in witnesses and counterexamples -/

/-- A concrete configuration for the concrete instances below. -/
def cfg0 : MonitorConfig :=
  { serverName := "test-server", port := 3000, retentionDays := 7,
    enableWebUI := true, enableMetricsExport := true }

/-- A fresh collector created at instant 0. -/
def s0 : CollectorState := mkCollector cfg0 0

/-- A concrete ingestion environment. -/
def env0 : IngestEnv := { id := "id1", errId := "eid1", now := 5 }

/-- A successful tool-call ingestion input with a given duration. -/
def okInput (d : ℚ) : ToolCallInput :=
  { toolName := "t", params := JSValue.obj 0, duration := some d,
    status := .success, error := none, result := some (JSValue.str "ok") }

/-- A failed tool-call ingestion input with a given duration. -/
def errInput (d : ℚ) : ToolCallInput :=
  { toolName := "t", params := JSValue.obj 0, duration := some d,
    status := .error, error := some "boom", result := none }

/-- A pending tool-call ingestion input. -/
def pendingInput (d : ℚ) : ToolCallInput :=
  { toolName := "t", params := JSValue.obj 0, duration := some d,
    status := .pending, error := none, result := none }

/-- A failed tool-call ingestion input with no error string supplied. -/
def errNoMsgInput : ToolCallInput :=
  { toolName := "t", params := JSValue.obj 0, duration := some 1,
    status := .error, error := none, result := none }

/-- An ingestion environment at instant 0 (stale record). -/
def envOld : IngestEnv := { id := "a", errId := "b", now := 0 }

/-- An ingestion environment at instant 604800000000 (fresh record). -/
def envFresh : IngestEnv :=
  { id := "c", errId := "d", now := 604800000000 }

/-- A collector holding one stale and one fresh tool record. -/
def s8 : CollectorState :=
  { s0 with toolCalls :=
      [mkToolRecord (okInput 3) envOld, mkToolRecord (okInput 4) envFresh] }

/-- Modelled from the spec: the nearest-rank index
`ceil(n * p) - 1`, clamped to `[0, n-1]` (claim C2's formula; the code's
`percentile` clamps only from below). -/
def nearestRankIdx (n : Nat) (p : ℚ) : Nat :=
  min (n - 1) (⌈(n : ℚ) * p⌉ - 1).toNat

/-- The duration log of the spec's concrete percentile example. -/
def lat10 : List ℚ := [10, 20, 30, 40, 50, 100, 200, 300, 400, 500]

/-- A collector whose duration log is `lat10`. -/
def sLat : CollectorState := { s0 with latencies := lat10 }

/-- The concrete claim-C3 ingestion sequence: two successes and one
failure on one name with durations 100, 200, 50. -/
def inputs3 : List (ToolCallInput × IngestEnv) :=
  [(okInput 100, env0), (okInput 200, env0), (errInput 50, env0)]

/-- The concrete claim-C4 ingestion sequence: eight successes and two
failures on one name. -/
def inputs82 : List (ToolCallInput × IngestEnv) :=
  List.replicate 8 (okInput 10, env0) ++
    [(errInput 5, env0), (errInput 5, env0)]

/-- The collector after one failed tool-call ingestion (one error
record, one total request). -/
def sErr : CollectorState := recordToolCall s0 (errInput 5) env0

/-! ## Basic lemmas about the ingestion operations -/

theorem recordRequest_toolCalls (s : CollectorState) (now : Int)
    (d : Option ℚ) : (recordRequest s now d).toolCalls = s.toolCalls := by
  unfold recordRequest; cases d <;> rfl

theorem recordRequest_resourceAccesses (s : CollectorState) (now : Int)
    (d : Option ℚ) :
    (recordRequest s now d).resourceAccesses = s.resourceAccesses := by
  unfold recordRequest; cases d <;> rfl

theorem recordRequest_promptCalls (s : CollectorState) (now : Int)
    (d : Option ℚ) :
    (recordRequest s now d).promptCalls = s.promptCalls := by
  unfold recordRequest; cases d <;> rfl

theorem recordRequest_errors (s : CollectorState) (now : Int)
    (d : Option ℚ) : (recordRequest s now d).errors = s.errors := by
  unfold recordRequest; cases d <;> rfl

theorem recordToolCall_toolCalls (s : CollectorState) (call : ToolCallInput)
    (env : IngestEnv) :
    (recordToolCall s call env).toolCalls =
      s.toolCalls ++ [mkToolRecord call env] := by
  cases hc : call.status <;>
    simp [recordToolCall, recordError, recordRequest_toolCalls,
      mkToolRecord, hc]

theorem recordToolCall_resourceAccesses (s : CollectorState)
    (call : ToolCallInput) (env : IngestEnv) :
    (recordToolCall s call env).resourceAccesses = s.resourceAccesses := by
  cases hc : call.status <;>
    simp [recordToolCall, recordError, recordRequest_resourceAccesses, hc]

theorem recordToolCall_promptCalls (s : CollectorState)
    (call : ToolCallInput) (env : IngestEnv) :
    (recordToolCall s call env).promptCalls = s.promptCalls := by
  cases hc : call.status <;>
    simp [recordToolCall, recordError, recordRequest_promptCalls, hc]

theorem recordResourceAccess_resourceAccesses (s : CollectorState)
    (access : ResourceAccessInput) (env : IngestEnv) :
    (recordResourceAccess s access env).resourceAccesses =
      s.resourceAccesses ++
        [{ id := env.id, timestamp := env.now,
           resourceUri := access.resourceUri,
           operation := access.operation, duration := access.duration,
           status := access.status, error := access.error,
           bytesTransferred := access.bytesTransferred }] := by
  cases hc : access.status <;>
    simp [recordResourceAccess, recordError,
      recordRequest_resourceAccesses, hc]

theorem recordResourceAccess_toolCalls (s : CollectorState)
    (access : ResourceAccessInput) (env : IngestEnv) :
    (recordResourceAccess s access env).toolCalls = s.toolCalls := by
  cases hc : access.status <;>
    simp [recordResourceAccess, recordError, recordRequest_toolCalls, hc]

theorem recordResourceAccess_promptCalls (s : CollectorState)
    (access : ResourceAccessInput) (env : IngestEnv) :
    (recordResourceAccess s access env).promptCalls = s.promptCalls := by
  cases hc : access.status <;>
    simp [recordResourceAccess, recordError, recordRequest_promptCalls,
      hc]

theorem recordPromptCall_promptCalls (s : CollectorState)
    (call : PromptCallInput) (env : IngestEnv) :
    (recordPromptCall s call env).promptCalls =
      s.promptCalls ++
        [{ id := env.id, timestamp := env.now,
           promptName := call.promptName, args := call.args,
           duration := call.duration, status := call.status,
           error := call.error,
           tokensGenerated := call.tokensGenerated }] := by
  cases hc : call.status <;>
    simp [recordPromptCall, recordError, recordRequest_promptCalls, hc]

theorem recordPromptCall_toolCalls (s : CollectorState)
    (call : PromptCallInput) (env : IngestEnv) :
    (recordPromptCall s call env).toolCalls = s.toolCalls := by
  cases hc : call.status <;>
    simp [recordPromptCall, recordError, recordRequest_toolCalls, hc]

theorem recordPromptCall_resourceAccesses (s : CollectorState)
    (call : PromptCallInput) (env : IngestEnv) :
    (recordPromptCall s call env).resourceAccesses =
      s.resourceAccesses := by
  cases hc : call.status <;>
    simp [recordPromptCall, recordError, recordRequest_resourceAccesses,
      hc]

/-- C1. Wrapper transparency: for each of the three capability kinds, the
wrapped capability settles with exactly the original's outcome — the
identical result value on success, the identical thrown failure (hence an
error with the identical message) on failure — and in both cases exactly
one ingestion call reaches the Engine: by the time the call settles the
Engine's log for that kind has grown by exactly the one new event record
(carrying the capability's name, a success/error status matching the
outcome, and on failure the failure's message), while the other two event
logs are untouched. -/
theorem c1_wrapper_transparency (s : CollectorState) (name : String)
    (tool res pr : List JSValue → Except JSThrown JSValue)
    (args : List JSValue) (t0 : Int) (env : IngestEnv) :
    ((wrapToolRun s name tool args t0 env).2 = tool args ∧
      (∃ rec, (wrapToolRun s name tool args t0 env).1.toolCalls =
          s.toolCalls ++ [rec] ∧
        rec.toolName = name ∧
        rec.status = (match tool args with
          | .ok _ => Status.success | .error _ => Status.error) ∧
        rec.error = (match tool args with
          | .ok _ => none | .error e => some e.messageOf)) ∧
      (wrapToolRun s name tool args t0 env).1.resourceAccesses =
        s.resourceAccesses ∧
      (wrapToolRun s name tool args t0 env).1.promptCalls =
        s.promptCalls) ∧
    ((wrapResourceRun s name res args t0 env).2 = res args ∧
      (∃ rec, (wrapResourceRun s name res args t0 env).1.resourceAccesses =
          s.resourceAccesses ++ [rec] ∧
        rec.resourceUri = name ∧
        rec.status = (match res args with
          | .ok _ => Status.success | .error _ => Status.error) ∧
        rec.error = (match res args with
          | .ok _ => none | .error e => some e.messageOf)) ∧
      (wrapResourceRun s name res args t0 env).1.toolCalls =
        s.toolCalls ∧
      (wrapResourceRun s name res args t0 env).1.promptCalls =
        s.promptCalls) ∧
    ((wrapPromptRun s name pr args t0 env).2 = pr args ∧
      (∃ rec, (wrapPromptRun s name pr args t0 env).1.promptCalls =
          s.promptCalls ++ [rec] ∧
        rec.promptName = name ∧
        rec.status = (match pr args with
          | .ok _ => Status.success | .error _ => Status.error) ∧
        rec.error = (match pr args with
          | .ok _ => none | .error e => some e.messageOf)) ∧
      (wrapPromptRun s name pr args t0 env).1.toolCalls = s.toolCalls ∧
      (wrapPromptRun s name pr args t0 env).1.resourceAccesses =
        s.resourceAccesses) := by
  refine ⟨?_, ?_, ?_⟩
  · unfold wrapToolRun
    cases h : tool args with
    | ok v =>
        exact ⟨rfl, ⟨mkToolRecord _ env, recordToolCall_toolCalls .., rfl,
          rfl, rfl⟩, recordToolCall_resourceAccesses ..,
          recordToolCall_promptCalls ..⟩
    | error e =>
        exact ⟨rfl, ⟨mkToolRecord _ env, recordToolCall_toolCalls .., rfl,
          rfl, rfl⟩, recordToolCall_resourceAccesses ..,
          recordToolCall_promptCalls ..⟩
  · unfold wrapResourceRun
    cases h : res args with
    | ok v =>
        exact ⟨rfl, ⟨_, recordResourceAccess_resourceAccesses .., rfl,
          rfl, rfl⟩, recordResourceAccess_toolCalls ..,
          recordResourceAccess_promptCalls ..⟩
    | error e =>
        exact ⟨rfl, ⟨_, recordResourceAccess_resourceAccesses .., rfl,
          rfl, rfl⟩, recordResourceAccess_toolCalls ..,
          recordResourceAccess_promptCalls ..⟩
  · unfold wrapPromptRun
    cases h : pr args with
    | ok v =>
        exact ⟨rfl, ⟨_, recordPromptCall_promptCalls .., rfl, rfl, rfl⟩,
          recordPromptCall_toolCalls ..,
          recordPromptCall_resourceAccesses ..⟩
    | error e =>
        exact ⟨rfl, ⟨_, recordPromptCall_promptCalls .., rfl, rfl, rfl⟩,
          recordPromptCall_toolCalls ..,
          recordPromptCall_resourceAccesses ..⟩

theorem recordToolCall_errors (s : CollectorState) (call : ToolCallInput)
    (env : IngestEnv) :
    (recordToolCall s call env).errors =
      if call.status = .error then
        s.errors ++
          [{ id := env.errId, timestamp := env.now, type := .tool,
              name := call.toolName, error := jsOrUnknown call.error,
              stackTrace := none }]
      else s.errors := by
  cases hc : call.status <;>
    simp [recordToolCall, recordError, recordRequest_errors, hc]

theorem recordResourceAccess_errors (s : CollectorState)
    (access : ResourceAccessInput) (env : IngestEnv) :
    (recordResourceAccess s access env).errors =
      if access.status = .error then
        s.errors ++
          [{ id := env.errId, timestamp := env.now, type := .resource,
              name := access.resourceUri, error := jsOrUnknown access.error,
              stackTrace := none }]
      else s.errors := by
  cases hc : access.status <;>
    simp [recordResourceAccess, recordError, recordRequest_errors, hc]

theorem recordPromptCall_errors (s : CollectorState)
    (call : PromptCallInput) (env : IngestEnv) :
    (recordPromptCall s call env).errors =
      if call.status = .error then
        s.errors ++
          [{ id := env.errId, timestamp := env.now, type := .prompt,
              name := call.promptName, error := jsOrUnknown call.error,
              stackTrace := none }]
      else s.errors := by
  cases hc : call.status <;>
    simp [recordPromptCall, recordError, recordRequest_errors, hc]

theorem jsOrUnknown_of_nonempty {m : String} (h : m ≠ "") :
    jsOrUnknown (some m) = m := by
  simp [jsOrUnknown, h]

theorem jsOrUnknown_of_missing {o : Option String}
    (h : o = none ∨ o = some "") : jsOrUnknown o = "Unknown error" := by
  rcases h with h | h <;> simp [h, jsOrUnknown]

/-- C10. Error-record derivation with message fallback: an ingestion with
status `'error'` (of any of the three kinds) appends exactly one error
record, whose `type` names the ingesting kind, whose `name` is the
event's name, and whose message is the supplied error string when present
and non-empty and the literal `"Unknown error"` when the error field is
absent or empty; an ingestion with any other status leaves the error log
unchanged. -/
theorem c10_error_record_fallback (s : CollectorState) (env : IngestEnv)
    (tc : ToolCallInput) (ra : ResourceAccessInput)
    (pc : PromptCallInput) :
    ((tc.status = .error →
      ∃ rec, (recordToolCall s tc env).errors = s.errors ++ [rec] ∧
        rec.type = .tool ∧ rec.name = tc.toolName ∧
        (∀ m, tc.error = some m → m ≠ "" → rec.error = m) ∧
        ((tc.error = none ∨ tc.error = some "") →
          rec.error = "Unknown error")) ∧
     (tc.status ≠ .error → (recordToolCall s tc env).errors = s.errors)) ∧
    ((ra.status = .error →
      ∃ rec, (recordResourceAccess s ra env).errors = s.errors ++ [rec] ∧
        rec.type = .resource ∧ rec.name = ra.resourceUri ∧
        (∀ m, ra.error = some m → m ≠ "" → rec.error = m) ∧
        ((ra.error = none ∨ ra.error = some "") →
          rec.error = "Unknown error")) ∧
     (ra.status ≠ .error →
       (recordResourceAccess s ra env).errors = s.errors)) ∧
    ((pc.status = .error →
      ∃ rec, (recordPromptCall s pc env).errors = s.errors ++ [rec] ∧
        rec.type = .prompt ∧ rec.name = pc.promptName ∧
        (∀ m, pc.error = some m → m ≠ "" → rec.error = m) ∧
        ((pc.error = none ∨ pc.error = some "") →
          rec.error = "Unknown error")) ∧
     (pc.status ≠ .error →
       (recordPromptCall s pc env).errors = s.errors)) := by
  refine ⟨⟨fun htc => ?_, fun htc2 => ?_⟩,
    ⟨fun hra => ?_, fun hra2 => ?_⟩, fun hpc => ?_, fun hpc2 => ?_⟩
  · refine ⟨_, by rw [recordToolCall_errors, if_pos htc], rfl, rfl,
      fun m hm hne => ?_, fun hm => jsOrUnknown_of_missing hm⟩
    rw [hm]; exact jsOrUnknown_of_nonempty hne
  · rw [recordToolCall_errors, if_neg htc2]
  · refine ⟨_, by rw [recordResourceAccess_errors, if_pos hra], rfl, rfl,
      fun m hm hne => ?_, fun hm => jsOrUnknown_of_missing hm⟩
    rw [hm]; exact jsOrUnknown_of_nonempty hne
  · rw [recordResourceAccess_errors, if_neg hra2]
  · refine ⟨_, by rw [recordPromptCall_errors, if_pos hpc], rfl, rfl,
      fun m hm hne => ?_, fun hm => jsOrUnknown_of_missing hm⟩
    rw [hm]; exact jsOrUnknown_of_nonempty hne
  · rw [recordPromptCall_errors, if_neg hpc2]

/-- Witness for C10: a concrete failed tool call with no error string
produces one error record whose message is the fallback text, and a
concrete successful call appends nothing. -/
theorem c10_witness :
    (∃ rec, (recordToolCall s0 errNoMsgInput env0).errors =
        s0.errors ++ [rec] ∧ rec.type = .tool ∧ rec.name = "t" ∧
        rec.error = "Unknown error") ∧
    (recordToolCall s0 (okInput 3) env0).errors = s0.errors := by
  constructor
  · obtain ⟨⟨h1, -⟩, -, -⟩ := c10_error_record_fallback s0 env0
      errNoMsgInput
      { resourceUri := "r", operation := .read, duration := none,
        status := .success, error := none, bytesTransferred := none }
      { promptName := "p", args := JSValue.obj 0, duration := none,
        status := .success, error := none, tokensGenerated := none }
    obtain ⟨rec, ha, hb, hc, -, hd⟩ := h1 rfl
    exact ⟨rec, ha, hb, hc, hd (Or.inl rfl)⟩
  · obtain ⟨⟨-, h2⟩, -, -⟩ := c10_error_record_fallback s0 env0
      (okInput 3)
      { resourceUri := "r", operation := .read, duration := none,
        status := .success, error := none, bytesTransferred := none }
      { promptName := "p", args := JSValue.obj 0, duration := none,
        status := .success, error := none, tokensGenerated := none }
    exact h2 (by decide)

/-- C7. Snapshot is read-only: `getMetrics` leaves every stored log and
the start time exactly as they were — the state after the snapshot equals
the state before it, field by field. -/
theorem c7_snapshot_readonly (s : CollectorState) (now : Int) :
    (getMetricsS s now).1.toolCalls = s.toolCalls ∧
    (getMetricsS s now).1.resourceAccesses = s.resourceAccesses ∧
    (getMetricsS s now).1.promptCalls = s.promptCalls ∧
    (getMetricsS s now).1.errors = s.errors ∧
    (getMetricsS s now).1.latencies = s.latencies ∧
    (getMetricsS s now).1.requestTimestamps = s.requestTimestamps ∧
    (getMetricsS s now).1.startTime = s.startTime ∧
    (getMetricsS s now).1 = s :=
  ⟨rfl, rfl, rfl, rfl, rfl, rfl, rfl, rfl⟩

/-- C8. Eviction sweep postcondition: after `cleanup` at instant `now`,
each of the four record logs contains exactly the records with timestamp
at or after `now − retentionDays·24·60·60·1000`, in their original order
(older records are absent); the duration log is truncated to its most
recent `min 10000 n` entries (a suffix); and timestamp-log entries older
than the same cutoff are dropped. -/
theorem c8_cleanup_postcondition (s : CollectorState) (now : Int) :
    ((cleanup s now).toolCalls.Sublist s.toolCalls ∧
     (∀ c ∈ (cleanup s now).toolCalls,
        now - s.config.retentionDays * 24 * 60 * 60 * 1000 ≤
          c.timestamp) ∧
     (∀ c ∈ s.toolCalls,
        now - s.config.retentionDays * 24 * 60 * 60 * 1000 ≤
          c.timestamp → c ∈ (cleanup s now).toolCalls)) ∧
    ((cleanup s now).resourceAccesses.Sublist s.resourceAccesses ∧
     (∀ r ∈ (cleanup s now).resourceAccesses,
        now - s.config.retentionDays * 24 * 60 * 60 * 1000 ≤
          r.timestamp) ∧
     (∀ r ∈ s.resourceAccesses,
        now - s.config.retentionDays * 24 * 60 * 60 * 1000 ≤
          r.timestamp → r ∈ (cleanup s now).resourceAccesses)) ∧
    ((cleanup s now).promptCalls.Sublist s.promptCalls ∧
     (∀ p ∈ (cleanup s now).promptCalls,
        now - s.config.retentionDays * 24 * 60 * 60 * 1000 ≤
          p.timestamp) ∧
     (∀ p ∈ s.promptCalls,
        now - s.config.retentionDays * 24 * 60 * 60 * 1000 ≤
          p.timestamp → p ∈ (cleanup s now).promptCalls)) ∧
    ((cleanup s now).errors.Sublist s.errors ∧
     (∀ e ∈ (cleanup s now).errors,
        now - s.config.retentionDays * 24 * 60 * 60 * 1000 ≤
          e.timestamp) ∧
     (∀ e ∈ s.errors,
        now - s.config.retentionDays * 24 * 60 * 60 * 1000 ≤
          e.timestamp → e ∈ (cleanup s now).errors)) ∧
    ((cleanup s now).latencies.IsSuffix s.latencies ∧
     (cleanup s now).latencies.length = min 10000 s.latencies.length) ∧
    ((cleanup s now).requestTimestamps.Sublist s.requestTimestamps ∧
     (∀ t ∈ (cleanup s now).requestTimestamps,
        now - s.config.retentionDays * 24 * 60 * 60 * 1000 ≤ t) ∧
     (∀ t ∈ s.requestTimestamps,
        now - s.config.retentionDays * 24 * 60 * 60 * 1000 ≤ t →
          t ∈ (cleanup s now).requestTimestamps)) := by
  refine ⟨⟨?_, fun c hc => ?_, fun c hc hle => ?_⟩,
    ⟨?_, fun r hr => ?_, fun r hr hle => ?_⟩,
    ⟨?_, fun p hp => ?_, fun p hp hle => ?_⟩,
    ⟨?_, fun e he => ?_, fun e he hle => ?_⟩,
    ⟨?_, ?_⟩,
    ⟨?_, fun t ht => ?_, fun t ht hle => ?_⟩⟩ <;>
      simp only [cleanup] at *
  · exact List.filter_sublist _
  · simpa using (List.mem_filter.mp hc).2
  · exact List.mem_filter.mpr ⟨hc, by simpa using hle⟩
  · exact List.filter_sublist _
  · simpa using (List.mem_filter.mp hr).2
  · exact List.mem_filter.mpr ⟨hr, by simpa using hle⟩
  · exact List.filter_sublist _
  · simpa using (List.mem_filter.mp hp).2
  · exact List.mem_filter.mpr ⟨hp, by simpa using hle⟩
  · exact List.filter_sublist _
  · simpa using (List.mem_filter.mp he).2
  · exact List.mem_filter.mpr ⟨he, by simpa using hle⟩
  · exact List.drop_suffix _ _
  · rw [List.length_drop]; omega
  · exact List.filter_sublist _
  · simpa using (List.mem_filter.mp ht).2
  · exact List.mem_filter.mpr ⟨ht, by simpa using hle⟩

/-- Witness for C8: on a concrete collector holding one stale and one
fresh tool record, the sweep retains the record whose timestamp is at the
cutoff boundary — obtained by applying the sweep postcondition theorem at
that state. -/
theorem c8_witness :
    mkToolRecord (okInput 4) envFresh ∈ (cleanup s8 604800000000).toolCalls := by
  obtain ⟨⟨-, -, hkeep⟩, -⟩ := c8_cleanup_postcondition s8 604800000000
  exact hkeep (mkToolRecord (okInput 4) envFresh)
    (by simp [s8]) (by norm_num [s8, s0, mkCollector, cfg0, mkToolRecord, envFresh])

/-! ## Percentile computation (claims C2 and C6) -/

theorem calculatePerformance_p50 (s : CollectorState) (now : Int) :
    (calculatePerformance s now).p50Latency =
      percentile s.latencies.mergeSort (50/100) := rfl

theorem calculatePerformance_p95 (s : CollectorState) (now : Int) :
    (calculatePerformance s now).p95Latency =
      percentile s.latencies.mergeSort (95/100) := rfl

theorem calculatePerformance_p99 (s : CollectorState) (now : Int) :
    (calculatePerformance s now).p99Latency =
      percentile s.latencies.mergeSort (99/100) := rfl

theorem calculatePerformance_avgLatency (s : CollectorState) (now : Int) :
    (calculatePerformance s now).avgLatency =
      if s.latencies.mergeSort.length > 0 then
        s.latencies.mergeSort.sum / s.latencies.mergeSort.length
      else 0 := rfl

theorem calculatePerformance_errorRate (s : CollectorState) (now : Int) :
    (calculatePerformance s now).errorRate =
      if totalRequestsOf s > 0 then
        ((s.errors.length : ℚ) / totalRequestsOf s) * 100
      else 0 := rfl

theorem calculatePerformance_successRate (s : CollectorState)
    (now : Int) :
    (calculatePerformance s now).successRate =
      if totalRequestsOf s > 0 then
        (((totalRequestsOf s : ℚ) - s.errors.length) / totalRequestsOf s)
          * 100
      else 100 := rfl

theorem percentile_eq_nearestRank (l : List ℚ) (p : ℚ) (hp1 : p ≤ 1)
    (hl : 0 < l.length) :
    percentile l p =
      l.getD (min (l.length - 1) (⌈(l.length : ℚ) * p⌉ - 1).toNat) 0 := by
  unfold percentile
  rw [if_neg (by omega)]
  congr 1
  have hceil : ⌈(l.length : ℚ) * p⌉ ≤ (l.length : Int) := by
    rw [Int.ceil_le]
    push_cast
    exact mul_le_of_le_one_right (by positivity) hp1
  omega

theorem percentile_mono (l : List ℚ) (hs : l.Sorted (· ≤ ·)) {p q : ℚ}
    (hpq : p ≤ q) (hq : q ≤ 1) (hl : 0 < l.length) :
    percentile l p ≤ percentile l q := by
  unfold percentile
  rw [if_neg (by omega), if_neg (by omega)]
  have hceilq : ⌈(l.length : ℚ) * q⌉ ≤ (l.length : Int) := by
    rw [Int.ceil_le]
    push_cast
    exact mul_le_of_le_one_right (by positivity) hq
  have hle : ⌈(l.length : ℚ) * p⌉ ≤ ⌈(l.length : ℚ) * q⌉ :=
    Int.ceil_le_ceil (mul_le_mul_of_nonneg_left hpq (by positivity))
  have hij : (max 0 (⌈(l.length : ℚ) * p⌉ - 1)).toNat ≤
      (max 0 (⌈(l.length : ℚ) * q⌉ - 1)).toNat := by omega
  have hjn : (max 0 (⌈(l.length : ℚ) * q⌉ - 1)).toNat < l.length := by
    omega
  have hin : (max 0 (⌈(l.length : ℚ) * p⌉ - 1)).toNat < l.length :=
    lt_of_le_of_lt hij hjn
  rw [List.getD_eq_getElem _ _ hin, List.getD_eq_getElem _ _ hjn]
  simpa using hs.rel_get_of_le
    (a := ⟨_, hin⟩) (b := ⟨_, hjn⟩) (by simpa using hij)

/-- C2. Percentile computation is nearest-rank: on a non-empty duration
log of size `n` the snapshot's p50/p95/p99 values are the elements of the
ascending sort of the log at index `ceil(n·p) − 1` clamped to
`[0, n−1]`; all three are `0` on an empty log; and on the log
`[10,20,30,40,50,100,200,300,400,500]` the average latency is 165,
p50 = 50, p95 = 500 and p99 = 500. -/
theorem c2_percentile_nearest_rank (s : CollectorState) (now : Int) :
    (0 < s.latencies.length →
      (calculatePerformance s now).p50Latency =
        s.latencies.mergeSort.getD
          (nearestRankIdx s.latencies.length (50/100)) 0 ∧
      (calculatePerformance s now).p95Latency =
        s.latencies.mergeSort.getD
          (nearestRankIdx s.latencies.length (95/100)) 0 ∧
      (calculatePerformance s now).p99Latency =
        s.latencies.mergeSort.getD
          (nearestRankIdx s.latencies.length (99/100)) 0) ∧
    (s.latencies.length = 0 →
      (calculatePerformance s now).p50Latency = 0 ∧
      (calculatePerformance s now).p95Latency = 0 ∧
      (calculatePerformance s now).p99Latency = 0) ∧
    (s.latencies = lat10 →
      (calculatePerformance s now).avgLatency = 165 ∧
      (calculatePerformance s now).p50Latency = 50 ∧
      (calculatePerformance s now).p95Latency = 500 ∧
      (calculatePerformance s now).p99Latency = 500) := by
  have hlen : s.latencies.mergeSort.length = s.latencies.length :=
    (List.mergeSort_perm s.latencies _).length_eq
  refine ⟨fun h => ?_, fun h => ?_, fun h => ?_⟩
  · have hl : 0 < s.latencies.mergeSort.length := by omega
    refine ⟨?_, ?_, ?_⟩
    · rw [calculatePerformance_p50,
        percentile_eq_nearestRank _ _ (by norm_num) hl, hlen]
      rfl
    · rw [calculatePerformance_p95,
        percentile_eq_nearestRank _ _ (by norm_num) hl, hlen]
      rfl
    · rw [calculatePerformance_p99,
        percentile_eq_nearestRank _ _ (by norm_num) hl, hlen]
      rfl
  · have hl : s.latencies.mergeSort.length = 0 := by omega
    refine ⟨?_, ?_, ?_⟩ <;>
      simp [calculatePerformance_p50, calculatePerformance_p95,
        calculatePerformance_p99, percentile, hl]
  · have hms : s.latencies.mergeSort = lat10 := by
      rw [h]; exact List.mergeSort_eq_self (by decide)
    have h50 : (⌈(10 : ℚ) * (50/100)⌉ : Int) = 5 := by
      rw [Int.ceil_eq_iff]; norm_num
    have h95 : (⌈(10 : ℚ) * (95/100)⌉ : Int) = 10 := by
      rw [Int.ceil_eq_iff]; norm_num
    have h99 : (⌈(10 : ℚ) * (99/100)⌉ : Int) = 10 := by
      rw [Int.ceil_eq_iff]; norm_num
    refine ⟨?_, ?_, ?_, ?_⟩
    · rw [calculatePerformance_avgLatency, hms]
      norm_num [lat10]
    · rw [calculatePerformance_p50, hms]
      simp [percentile, lat10, h50]
    · rw [calculatePerformance_p95, hms]
      simp [percentile, lat10, h95]
    · rw [calculatePerformance_p99, hms]
      simp [percentile, lat10, h99]

/-- Witness for C2: the concrete duration log
`[10,20,30,40,50,100,200,300,400,500]` yields average latency 165,
p50 = 50, p95 = 500, p99 = 500, by the nearest-rank theorem. -/
theorem c2_witness :
    (calculatePerformance sLat 0).avgLatency = 165 ∧
    (calculatePerformance sLat 0).p50Latency = 50 ∧
    (calculatePerformance sLat 0).p95Latency = 500 ∧
    (calculatePerformance sLat 0).p99Latency = 500 :=
  (c2_percentile_nearest_rank sLat 0).2.2 rfl

/-- C6. Percentile monotonicity: on any non-empty duration log the
snapshot satisfies p50 ≤ p95 ≤ p99. -/
theorem c6_percentile_monotonicity (s : CollectorState) (now : Int)
    (h : s.latencies ≠ []) :
    (calculatePerformance s now).p50Latency ≤
      (calculatePerformance s now).p95Latency ∧
    (calculatePerformance s now).p95Latency ≤
      (calculatePerformance s now).p99Latency := by
  have hs := List.sorted_mergeSort' s.latencies
  have hl : 0 < s.latencies.mergeSort.length := by
    rw [(List.mergeSort_perm s.latencies _).length_eq]
    exact List.length_pos.mpr h
  constructor
  · rw [calculatePerformance_p50, calculatePerformance_p95]
    exact percentile_mono _ hs (by norm_num) (by norm_num) hl
  · rw [calculatePerformance_p95, calculatePerformance_p99]
    exact percentile_mono _ hs (by norm_num) (by norm_num) hl

/-- Witness for C6: the monotonicity theorem applied to the concrete
non-empty duration log `lat10`. -/
theorem c6_witness :
    (calculatePerformance sLat 0).p50Latency ≤
      (calculatePerformance sLat 0).p95Latency ∧
    (calculatePerformance sLat 0).p95Latency ≤
      (calculatePerformance sLat 0).p99Latency :=
  c6_percentile_monotonicity sLat 0 (by simp [sLat, lat10])

/-! ## Success and error rate (claim C4) -/

/-- C4. Success/error rate: in every state, `successRate` equals
`100 − errorRate`; on an empty request log `errorRate = 0` and
`successRate = 100`; otherwise `errorRate` equals the error-log size
divided by the total requests across the three kinds, times 100; and the
concrete 8-success/2-failure sequence on one name gives exactly
`successRate = 80`, `errorRate = 20`. -/
theorem c4_success_error_rate (s : CollectorState) (now : Int) :
    (calculatePerformance s now).successRate =
      100 - (calculatePerformance s now).errorRate ∧
    (totalRequestsOf s = 0 →
      (calculatePerformance s now).errorRate = 0 ∧
      (calculatePerformance s now).successRate = 100) ∧
    (0 < totalRequestsOf s →
      (calculatePerformance s now).errorRate =
        ((s.errors.length : ℚ) / (totalRequestsOf s : ℚ)) * 100) ∧
    ((calculatePerformance (ingestToolCalls inputs82 s0) 0).successRate =
        80 ∧
     (calculatePerformance (ingestToolCalls inputs82 s0) 0).errorRate =
        20) := by
  have ht : totalRequestsOf (ingestToolCalls inputs82 s0) = 10 := by
    decide
  have he : (ingestToolCalls inputs82 s0).errors.length = 2 := by decide
  refine ⟨?_, fun h0 => ?_, fun hpos => ?_, ?_, ?_⟩
  · rw [calculatePerformance_errorRate, calculatePerformance_successRate]
    by_cases h : totalRequestsOf s > 0
    · rw [if_pos h, if_pos h]
      have htq : ((totalRequestsOf s : ℚ)) ≠ 0 :=
        Nat.cast_ne_zero.mpr (by omega)
      field_simp
      ring
    · rw [if_neg h, if_neg h]; norm_num
  · rw [calculatePerformance_errorRate, calculatePerformance_successRate,
      if_neg (by omega), if_neg (by omega)]
    exact ⟨rfl, rfl⟩
  · rw [calculatePerformance_errorRate, if_pos hpos]
  · rw [calculatePerformance_successRate, ht, he]
    norm_num
  · rw [calculatePerformance_errorRate, ht, he]
    norm_num

/-- Witness for C4: the rate theorem applied both to the empty collector
(rates default to 0/100) and to the concrete 8-success/2-failure state. -/
theorem c4_witness :
    ((calculatePerformance s0 0).errorRate = 0 ∧
     (calculatePerformance s0 0).successRate = 100) ∧
    (calculatePerformance (ingestToolCalls inputs82 s0) 0).errorRate =
      ((((ingestToolCalls inputs82 s0).errors.length : ℚ)) /
        ((totalRequestsOf (ingestToolCalls inputs82 s0) : ℚ))) * 100 :=
  ⟨(c4_success_error_rate s0 0).2.1 (by decide),
   (c4_success_error_rate (ingestToolCalls inputs82 s0) 0).2.2.1
     (by decide)⟩

/-! ## Per-name tool aggregation (claims C3 and C9) -/

theorem foldl_keys_const (t : String) (ns : List String)
    (h : ∀ n ∈ ns, n = t) :
    ns.foldl (fun acc n => if n ∈ acc then acc else acc ++ [n]) [t] =
      [t] := by
  induction ns with
  | nil => rfl
  | cons n rest ih =>
      have hn : n = t := h n (by simp)
      subst hn
      simp only [List.foldl_cons]
      rw [if_pos (by simp)]
      exact ih (fun m hm => h m (by simp [hm]))

theorem keysInOrder_const (ns : List String) (t : String) (hne : ns ≠ [])
    (h : ∀ n ∈ ns, n = t) : keysInOrder ns = [t] := by
  cases ns with
  | nil => exact absurd rfl hne
  | cons n rest =>
      have hn : n = t := h n (by simp)
      unfold keysInOrder
      simp only [List.foldl_cons]
      rw [if_neg (by simp), List.nil_append, hn]
      exact foldl_keys_const t rest (fun m hm => h m (by simp [hm]))

theorem foldl_toolEntryStep_name (l : List MCPToolCall) :
    ∀ init, (l.foldl toolEntryStep init).name = init.name := by
  induction l with
  | nil => intro init; rfl
  | cons c rest ih =>
      intro init
      rw [List.foldl_cons, ih]
      rfl

theorem foldl_toolEntryStep_callCount (l : List MCPToolCall) :
    ∀ init, (l.foldl toolEntryStep init).callCount =
      init.callCount + l.length := by
  induction l with
  | nil => intro init; simp
  | cons c rest ih =>
      intro init
      rw [List.foldl_cons, ih]
      simp only [toolEntryStep, List.length_cons]
      omega

theorem foldl_toolEntryStep_successCount (l : List MCPToolCall) :
    ∀ init, (l.foldl toolEntryStep init).successCount =
      init.successCount +
        l.countP (fun c => decide (c.status = Status.success)) := by
  induction l with
  | nil => intro init; simp
  | cons c rest ih =>
      intro init
      rw [List.foldl_cons, ih, List.countP_cons]
      simp only [toolEntryStep]
      by_cases hc : c.status = Status.success <;> simp [hc] <;> omega

theorem foldl_toolEntryStep_errorCount (l : List MCPToolCall) :
    ∀ init, (l.foldl toolEntryStep init).errorCount =
      init.errorCount +
        l.countP (fun c => decide (c.status = Status.error)) := by
  induction l with
  | nil => intro init; simp
  | cons c rest ih =>
      intro init
      rw [List.foldl_cons, ih, List.countP_cons]
      simp only [toolEntryStep]
      by_cases hc : c.status = Status.error <;> simp [hc] <;> omega

/-- Every entry of the per-name tool aggregation satisfies the spec's
characterization: its counts are filter/count expressions over the raw
log on the entry's own name, and its `avgDuration` is the mean of the
supplied durations for that name. -/
theorem mem_calculateToolMetrics (calls : List MCPToolCall)
    (m : ToolMetrics) (hm : m ∈ calculateToolMetrics calls) :
    m.callCount =
      (calls.filter (fun c => c.toolName = m.name)).length ∧
    m.successCount =
      (calls.filter (fun c => c.toolName = m.name)).countP
        (fun c => decide (c.status = Status.success)) ∧
    m.errorCount =
      (calls.filter (fun c => c.toolName = m.name)).countP
        (fun c => decide (c.status = Status.error)) ∧
    m.avgDuration =
      (if (toolDurations calls m.name).length > 0 then
        (toolDurations calls m.name).sum /
          (toolDurations calls m.name).length
      else 0) := by
  unfold calculateToolMetrics at hm
  obtain ⟨k, hk, rfl⟩ := List.mem_map.mp hm
  refine ⟨?_, ?_, ?_, ?_⟩ <;>
    simp [foldl_toolEntryStep_name, foldl_toolEntryStep_callCount,
      foldl_toolEntryStep_successCount, foldl_toolEntryStep_errorCount,
      initToolEntry, toolDurations]

theorem ingestToolCalls_toolCalls (l : List (ToolCallInput × IngestEnv)) :
    ∀ s, (ingestToolCalls l s).toolCalls =
      s.toolCalls ++ l.map (fun ce => mkToolRecord ce.1 ce.2) := by
  induction l with
  | nil => intro s; simp [ingestToolCalls]
  | cons ce rest ih =>
      intro s
      show (ingestToolCalls rest (recordToolCall s ce.1 ce.2)).toolCalls =
        _
      rw [ih, recordToolCall_toolCalls]
      simp

theorem countP_status_partition
    (l : List (ToolCallInput × IngestEnv))
    (h : ∀ ce ∈ l, ce.1.status = Status.success ∨
      ce.1.status = Status.error) :
    l.countP (fun ce => decide (ce.1.status = Status.success)) +
      l.countP (fun ce => decide (ce.1.status = Status.error)) =
      l.length := by
  induction l with
  | nil => simp
  | cons ce rest ih =>
      have hrest := ih (fun x hx => h x (by simp [hx]))
      rcases h ce (by simp) with hs | hs <;>
        simp [List.countP_cons, hs] <;> omega

/-- C3. Per-name tool aggregation: for every non-empty ingestion
sequence on a single tool name whose statuses are all success or error,
the snapshot's tool aggregation has exactly one entry, and that entry has
`callCount = N + M` (`N` successes, `M` errors), `successCount = N`,
`errorCount = M`, and `avgDuration` equal to the arithmetic mean of
exactly the supplied durations (0 when none were supplied). -/
theorem c3_per_name_aggregation (cfg : MonitorConfig) (t0 : Int)
    (t : String) (l : List (ToolCallInput × IngestEnv)) (hne : l ≠ [])
    (hnames : ∀ ce ∈ l, ce.1.toolName = t)
    (hstatus : ∀ ce ∈ l, ce.1.status = Status.success ∨
      ce.1.status = Status.error) :
    (calculateToolMetrics
      (ingestToolCalls l (mkCollector cfg t0)).toolCalls).length = 1 ∧
    ∀ m ∈ calculateToolMetrics
        (ingestToolCalls l (mkCollector cfg t0)).toolCalls,
      m.name = t ∧
      m.callCount = l.length ∧
      m.callCount =
        l.countP (fun ce => decide (ce.1.status = Status.success)) +
          l.countP (fun ce => decide (ce.1.status = Status.error)) ∧
      m.successCount =
        l.countP (fun ce => decide (ce.1.status = Status.success)) ∧
      m.errorCount =
        l.countP (fun ce => decide (ce.1.status = Status.error)) ∧
      m.avgDuration =
        (if l.filterMap (fun ce => ce.1.duration) = [] then 0
         else (l.filterMap (fun ce => ce.1.duration)).sum /
           (l.filterMap (fun ce => ce.1.duration)).length) := by
  have hM : (ingestToolCalls l (mkCollector cfg t0)).toolCalls =
      l.map (fun ce => mkToolRecord ce.1 ce.2) := by
    rw [ingestToolCalls_toolCalls]
    simp [mkCollector]
  have hMnames : ∀ c ∈ (ingestToolCalls l (mkCollector cfg t0)).toolCalls,
      c.toolName = t := by
    rw [hM]
    intro c hc
    obtain ⟨ce, hce, rfl⟩ := List.mem_map.mp hc
    exact hnames ce hce
  have hkeys : keysInOrder
      ((ingestToolCalls l (mkCollector cfg t0)).toolCalls.map
        (fun c => c.toolName)) = [t] := by
    apply keysInOrder_const _ t
    · simp only [hM, List.map_map, ne_eq, List.map_eq_nil_iff]
      exact hne
    · intro n hn
      obtain ⟨c, hc, rfl⟩ := List.mem_map.mp hn
      exact hMnames c hc
  have hfilter :
      ((ingestToolCalls l (mkCollector cfg t0)).toolCalls.filter
        (fun c => c.toolName = t)) =
        (ingestToolCalls l (mkCollector cfg t0)).toolCalls :=
    List.filter_eq_self.mpr (fun c hc => by simp [hMnames c hc])
  constructor
  · unfold calculateToolMetrics
    rw [hkeys]
    rfl
  · intro m hm
    have hspec := mem_calculateToolMetrics _ m hm
    have hmname : m.name = t := by
      unfold calculateToolMetrics at hm
      rw [hkeys] at hm
      obtain ⟨k, hk, rfl⟩ := List.mem_map.mp hm
      have : k = t := by simpa using hk
      subst this
      simp only
      rw [foldl_toolEntryStep_name]
      rfl
    rw [hmname] at hspec
    obtain ⟨hcall, hsucc, herr, havg⟩ := hspec
    have hlen : ((ingestToolCalls l (mkCollector cfg t0)).toolCalls.filter
        (fun c => c.toolName = t)).length = l.length := by
      rw [hfilter, hM, List.length_map]
    have hsucc' : ((ingestToolCalls l
        (mkCollector cfg t0)).toolCalls.filter
          (fun c => c.toolName = t)).countP
            (fun c => decide (c.status = Status.success)) =
        l.countP (fun ce => decide (ce.1.status = Status.success)) := by
      rw [hfilter, hM, List.countP_map]
      rfl
    have herr' : ((ingestToolCalls l
        (mkCollector cfg t0)).toolCalls.filter
          (fun c => c.toolName = t)).countP
            (fun c => decide (c.status = Status.error)) =
        l.countP (fun ce => decide (ce.1.status = Status.error)) := by
      rw [hfilter, hM, List.countP_map]
      rfl
    have hdur : toolDurations
        (ingestToolCalls l (mkCollector cfg t0)).toolCalls t =
        l.filterMap (fun ce => ce.1.duration) := by
      unfold toolDurations
      rw [hfilter, hM, List.filterMap_map]
      rfl
    refine ⟨hmname, ?_, ?_, ?_, ?_, ?_⟩
    · rw [hcall, hlen]
    · rw [hcall, hlen,
        countP_status_partition l hstatus]
    · rw [hsucc, hsucc']
    · rw [herr, herr']
    · rw [havg, hdur]
      by_cases hds : l.filterMap (fun ce => ce.1.duration) = [] <;>
        simp [hds, List.length_pos]

/-- Witness for C3: the concrete sequence of two successes and one
failure on the name `"t"` with durations 100, 200, 50 yields one
aggregate entry with `callCount = 3`, `successCount = 2`,
`errorCount = 1`, `avgDuration = 350/3`. -/
theorem c3_witness :
    (calculateToolMetrics
      (ingestToolCalls inputs3 (mkCollector cfg0 0)).toolCalls).length =
        1 ∧
    ∀ m ∈ calculateToolMetrics
        (ingestToolCalls inputs3 (mkCollector cfg0 0)).toolCalls,
      m.name = "t" ∧ m.callCount = 3 ∧ m.successCount = 2 ∧
        m.errorCount = 1 ∧ m.avgDuration = 350 / 3 := by
  obtain ⟨h1, h2⟩ := c3_per_name_aggregation cfg0 0 "t" inputs3
    (by decide) (by decide) (by decide)
  refine ⟨h1, fun m hm => ?_⟩
  obtain ⟨hn, hc, -, hs, he, hd⟩ := h2 m hm
  refine ⟨hn, ?_, ?_, ?_, ?_⟩
  · rw [hc]; decide
  · rw [hs]; decide
  · rw [he]; decide
  · have hds : inputs3.filterMap (fun ce => ce.1.duration) =
        [100, 200, 50] := by decide
    rw [hd, hds, if_neg (by decide)]
    norm_num [List.sum_cons, List.sum_nil]

/-! ## Kind-specific derived metrics (claim C5) -/

/-- Counterexample for C5 as stated: a wrapped prompt capability whose
original succeeds with the empty string reports `tokensGenerated = 1`
(the length of `''.split(/\s+/)`, which is `['']`), while the
whitespace-delimited word count of the empty string is 0. -/
theorem c5_counterexample :
    ((wrapPromptRun s0 "p" (fun _ => Except.ok (JSValue.str "")) [] 0
        env0).1.promptCalls.map (fun r => r.tokensGenerated)) =
      [some 1] ∧
    specWordCount "" = 0 ∧
    ((wrapPromptRun s0 "p" (fun _ => Except.ok (JSValue.str "")) [] 0
        env0).1.promptCalls.map (fun r => r.tokensGenerated)) ≠
      [some ((specWordCount "" : ℚ))] := by
  refine ⟨by decide, by decide, by decide⟩

/-- C5 (amended). Kind-specific derived metrics on success: a wrapped
resource capability whose original succeeds reports a success event whose
`bytesTransferred` is the result string's length (0 for a non-string
result); a wrapped prompt capability whose original succeeds reports a
success event whose `tokensGenerated` is the number of fields of the
result string split at maximal whitespace runs — equal to the
whitespace-delimited word count for non-empty strings without leading or
trailing whitespace, but counting one leading/trailing empty field when
such whitespace exists, and 1 for the empty string — and 0 for a
non-string result. -/
theorem c5_kind_specific_metrics (s : CollectorState) (name : String)
    (res pr : List JSValue → Except JSThrown JSValue)
    (args : List JSValue) (t0 : Int) (env : IngestEnv) :
    (∀ v, res args = Except.ok v →
      ∃ rec, (wrapResourceRun s name res args t0 env).1.resourceAccesses =
          s.resourceAccesses ++ [rec] ∧
        rec.status = Status.success ∧
        rec.bytesTransferred = some (jsStrLength v)) ∧
    (∀ v, pr args = Except.ok v →
      ∃ rec, (wrapPromptRun s name pr args t0 env).1.promptCalls =
          s.promptCalls ++ [rec] ∧
        rec.status = Status.success ∧
        rec.tokensGenerated = some (jsSplitCount v)) := by
  constructor
  · intro v hv
    unfold wrapResourceRun
    rw [hv]
    exact ⟨_, recordResourceAccess_resourceAccesses .., rfl, rfl⟩
  · intro v hv
    unfold wrapPromptRun
    rw [hv]
    exact ⟨_, recordPromptCall_promptCalls .., rfl, rfl⟩

/-- Witness for C5: concrete wrapped capabilities returning `"hello"`
(resource: 5 bytes) and `"hello world"` (prompt: 2 tokens). -/
theorem c5_witness :
    (∃ rec, (wrapResourceRun s0 "r"
        (fun _ => Except.ok (JSValue.str "hello")) [] 0
        env0).1.resourceAccesses = s0.resourceAccesses ++ [rec] ∧
      rec.status = Status.success ∧ rec.bytesTransferred = some 5) ∧
    (∃ rec, (wrapPromptRun s0 "p"
        (fun _ => Except.ok (JSValue.str "hello world")) [] 0
        env0).1.promptCalls = s0.promptCalls ++ [rec] ∧
      rec.status = Status.success ∧ rec.tokensGenerated = some 2) := by
  obtain ⟨hres, hpr⟩ := c5_kind_specific_metrics s0 "r"
    (fun _ => Except.ok (JSValue.str "hello"))
    (fun _ => Except.ok (JSValue.str "hello world")) [] 0 env0
  obtain ⟨hres2, hpr2⟩ := c5_kind_specific_metrics s0 "p"
    (fun _ => Except.ok (JSValue.str "hello"))
    (fun _ => Except.ok (JSValue.str "hello world")) [] 0 env0
  constructor
  · obtain ⟨rec, ha, hb, hc⟩ := hres (JSValue.str "hello") rfl
    exact ⟨rec, ha, hb, by rw [hc]; decide⟩
  · obtain ⟨rec, ha, hb, hc⟩ := hpr2 (JSValue.str "hello world") rfl
    exact ⟨rec, ha, hb, by rw [hc]; decide⟩

/-! ## Pending-status accounting (claim C9) -/

theorem recordToolCall_latencies (s : CollectorState)
    (call : ToolCallInput) (env : IngestEnv) :
    (recordToolCall s call env).latencies =
      s.latencies ++ call.duration.toList := by
  cases hc : call.status <;> cases hd : call.duration <;>
    simp [recordToolCall, recordRequest, recordError, hc, hd]

theorem recordToolCall_requestTimestamps (s : CollectorState)
    (call : ToolCallInput) (env : IngestEnv) :
    (recordToolCall s call env).requestTimestamps =
      s.requestTimestamps ++ [env.now] := by
  cases hc : call.status <;> cases hd : call.duration <;>
    simp [recordToolCall, recordRequest, recordError, hc, hd]

theorem getMetrics_totalRequests (s : CollectorState) (now : Int) :
    (getMetrics s now).totalRequests = totalRequestsOf s := rfl

theorem getMetrics_successfulRequests (s : CollectorState) (now : Int) :
    (getMetrics s now).successfulRequests = successfulRequestsOf s := rfl

theorem getMetrics_failedRequests (s : CollectorState) (now : Int) :
    (getMetrics s now).failedRequests =
      (totalRequestsOf s : Int) - successfulRequestsOf s := rfl

/-- `calculatePerformance` depends on the state only through the latency
log, the error-log size, the total request count and the timestamp log. -/
theorem calculatePerformance_congr {s1 s2 : CollectorState} (now : Int)
    (hl : s1.latencies = s2.latencies)
    (he : s1.errors.length = s2.errors.length)
    (ht : totalRequestsOf s1 = totalRequestsOf s2)
    (hr : s1.requestTimestamps = s2.requestTimestamps) :
    calculatePerformance s1 now = calculatePerformance s2 now := by
  unfold calculatePerformance calculateRequestsPerSecond
  rw [hl, he, ht, hr]

/-- C9 (amended). Pending-status accounting: a tool call ingested with
status `'pending'` raises `totalRequests` by 1, leaves
`successfulRequests` unchanged (so `failedRequests` counts it as
failed), creates no error record — the error log is unchanged and every
per-name errorCount still equals the error count of the pre-ingestion
log for that name — and the whole performance snapshot (successRate and
errorRate included) is exactly what a success-status ingestion of the
same call would give: both rates are recomputed with the pending call in
the denominator, so errorRate is not unchanged in general. -/
theorem c9_pending_accounting (s : CollectorState)
    (input : ToolCallInput) (env : IngestEnv) (now : Int)
    (h : input.status = Status.pending) :
    (getMetrics (recordToolCall s input env) now).totalRequests =
      (getMetrics s now).totalRequests + 1 ∧
    (getMetrics (recordToolCall s input env) now).successfulRequests =
      (getMetrics s now).successfulRequests ∧
    (getMetrics (recordToolCall s input env) now).failedRequests =
      (getMetrics s now).failedRequests + 1 ∧
    (recordToolCall s input env).errors = s.errors ∧
    (∀ m ∈ calculateToolMetrics (recordToolCall s input env).toolCalls,
      m.errorCount =
        (s.toolCalls.filter (fun c => c.toolName = m.name)).countP
          (fun c => decide (c.status = Status.error))) ∧
    calculatePerformance (recordToolCall s input env) now =
      calculatePerformance
        (recordToolCall s { input with status := Status.success } env)
        now := by
  have htc := recordToolCall_toolCalls s input env
  have h1 : totalRequestsOf (recordToolCall s input env) =
      totalRequestsOf s + 1 := by
    simp [totalRequestsOf, htc, recordToolCall_resourceAccesses,
      recordToolCall_promptCalls]
    omega
  have h2 : successfulRequestsOf (recordToolCall s input env) =
      successfulRequestsOf s := by
    simp [successfulRequestsOf, htc, recordToolCall_resourceAccesses,
      recordToolCall_promptCalls, List.filter_append, mkToolRecord, h]
  refine ⟨?_, ?_, ?_, ?_, ?_, ?_⟩
  · rw [getMetrics_totalRequests, getMetrics_totalRequests, h1]
  · rw [getMetrics_successfulRequests, getMetrics_successfulRequests, h2]
  · rw [getMetrics_failedRequests, getMetrics_failedRequests, h1, h2]
    push_cast
    ring
  · rw [recordToolCall_errors, if_neg (by simp [h])]
  · intro m hm
    obtain ⟨-, -, herr, -⟩ := mem_calculateToolMetrics _ m hm
    rw [herr, htc, List.filter_append, List.countP_append]
    have hz : (List.filter (fun c => c.toolName = m.name)
        [mkToolRecord input env]).countP
          (fun c => decide (c.status = Status.error)) = 0 := by
      by_cases hn : (mkToolRecord input env).toolName = m.name <;>
        simp [List.filter_cons, hn, mkToolRecord, h]
    rw [hz]
    omega
  · apply calculatePerformance_congr
    · rw [recordToolCall_latencies, recordToolCall_latencies]
    · rw [recordToolCall_errors, recordToolCall_errors,
        if_neg (by simp [h]), if_neg (by simp)]
    · rw [h1]
      have h1' : totalRequestsOf
          (recordToolCall s { input with status := Status.success }
            env) = totalRequestsOf s + 1 := by
        simp [totalRequestsOf, recordToolCall_toolCalls,
          recordToolCall_resourceAccesses, recordToolCall_promptCalls]
        omega
      rw [h1']
    · rw [recordToolCall_requestTimestamps,
        recordToolCall_requestTimestamps]

/-- Counterexample for C9 as stated: after one failed ingestion the
errorRate is 100; a further pending ingestion changes it to 50, so the
errorRate is not left unchanged by a pending call. -/
theorem c9_counterexample :
    (calculatePerformance
      (recordToolCall sErr (pendingInput 5) env0) 0).errorRate ≠
    (calculatePerformance sErr 0).errorRate := by
  have h1 : totalRequestsOf
      (recordToolCall sErr (pendingInput 5) env0) = 2 := by decide
  have h2 : (recordToolCall sErr (pendingInput 5) env0).errors.length =
      1 := by decide
  have h3 : totalRequestsOf sErr = 1 := by decide
  have h4 : sErr.errors.length = 1 := by decide
  rw [calculatePerformance_errorRate, calculatePerformance_errorRate,
    h1, h2, h3, h4]
  norm_num

/-- Witness for C9: the pending-accounting theorem applied to the
concrete one-error collector `sErr` and a concrete pending call. -/
theorem c9_witness :
    (getMetrics (recordToolCall sErr (pendingInput 7) env0)
        0).totalRequests = (getMetrics sErr 0).totalRequests + 1 ∧
    (getMetrics (recordToolCall sErr (pendingInput 7) env0)
        0).successfulRequests = (getMetrics sErr 0).successfulRequests ∧
    (recordToolCall sErr (pendingInput 7) env0).errors = sErr.errors := by
  obtain ⟨ha, hb, -, hd, -, -⟩ :=
    c9_pending_accounting sErr (pendingInput 7) env0 0 rfl
  exact ⟨ha, hb, hd⟩

end MCPMonitor

